import Mathlib

/-!
Verification of the orphan-block remover (`fix-orphans.py`, function `fix_file`)
and of the layout fixer's `add_import` (`scripts/fix-layouts.py`).

Lines of the processed file are modelled as `List Char`; a file is a
`List (List Char)`.  All string primitives used by the Python code
(`str.strip`, `str.rstrip`, `str.endswith`, substring containment, the
regular expression `^\s+\w+:` anchored at the start of the string) are
embedded as structurally recursive functions on `List Char`.
-/

namespace ThunderText

/-- Whitespace characters removed by Python `str.strip()` and matched by the
regex class `\s` (ASCII core: space, tab, newline, carriage return,
vertical tab, form feed). The same predicate is used for both, matching
Python where `\s` and `str.isspace` agree. -/
def isSpaceChar (c : Char) : Bool :=
  c = ' ' || c = '\t' || c = '\n' || c = '\r' || c = '\x0b' || c = '\x0c'

/-- Word characters of the regex class `\w` (ASCII core). -/
def isWordChar (c : Char) : Bool :=
  c.isAlphanum || c = '_'

/-- Python `str.rstrip()`: remove trailing whitespace. -/
def rstripL (s : List Char) : List Char :=
  (s.reverse.dropWhile isSpaceChar).reverse

/-- Python `str.strip()`: remove leading and trailing whitespace. -/
def stripL (s : List Char) : List Char :=
  rstripL (s.dropWhile isSpaceChar)

/-- Python `s.endswith(suffix)`. -/
def endsWithL (s suffix : List Char) : Bool :=
  suffix.isSuffixOf s

/-- Python substring containment `pat in s`. -/
def containsSub (pat : List Char) : List Char → Bool
  | [] => pat.isEmpty
  | c :: rest => pat.isPrefixOf (c :: rest) || containsSub pat rest

/-- The regex test `re.match(r'^\s+\w+:', s)` as a Bool: the string starts
with one or more whitespace characters, then one or more word characters,
then a colon.  (Greedy matching needs no backtracking here because the
classes `\s` and `\w` are disjoint and neither contains `:`.) -/
def matchWsWordColon (s : List Char) : Bool :=
  !((s.takeWhile isSpaceChar).isEmpty) &&
  (!(((s.dropWhile isSpaceChar).takeWhile isWordChar).isEmpty) &&
    ((s.dropWhile isSpaceChar).dropWhile isWordChar).head? = some ':')

/-- The candidate test of `fix_file` (fix-orphans.py line 25):
`re.match(r'^\s+\w+:', line.strip()) and line.rstrip().endswith(',')`. -/
def candLine (line : List Char) : Bool :=
  matchWsWordColon (stripL line) && endsWithL (rstripL line) [',']

/-- The closing token `});`. -/
def closingBP : List Char := "\x7d);".data

/-- The closing token `}`. -/
def closingB : List Char := "\x7d".data

/-- The inner look-ahead loop of `fix_file` (lines 31-37), scanning the
suffix of the file that starts at index `j`; `i` is the index of the
candidate line.  Returns the `found_closing` flag and the final value of
`j`: processing a line appends it to the block, sets the flag if its
stripped form is `});` or `}`, increments `j`, and breaks once
`j - i > 50` (the safety limit). -/
def lookAheadAux (i : Nat) : Nat → List (List Char) → Bool × Nat
  | j, [] => (false, j)
  | j, l :: rest =>
    if stripL l = closingBP ∨ stripL l = closingB then (true, j + 1)
    else if j + 1 - i > 50 then (false, j + 1)
    else lookAheadAux i (j + 1) rest

/-- The look-ahead starting at the candidate index itself (`j = i`). -/
def lookAhead (lines : List (List Char)) (i : Nat) : Bool × Nat :=
  lookAheadAux i i (lines.drop i)

/-- The backward scan of `fix_file` (lines 40-42): starting at `i - 1`,
skip lines whose stripped form is empty; return the index of the nearest
non-blank preceding line, or `none` when every earlier line is blank (the
Python `prev_idx` becomes negative). -/
def prevNonBlank (lines : List (List Char)) : Nat → Option Nat
  | 0 => none
  | k + 1 =>
    if (stripL (lines.getD k [])).isEmpty then prevNonBlank lines k
    else some k

/-- The validity check of `fix_file` (lines 47-50) on the stripped
preceding line: it ends with `{`, ends with `({`, contains `console.log`,
or ends with `: {`. -/
def isValidPrev (prev : List Char) : Bool :=
  endsWithL prev "\x7b".data || endsWithL prev "(\x7b".data ||
  containsSub "console.log".data prev || endsWithL prev ": \x7b".data

/-- The main scanning loop of `fix_file` (lines 20-61), as a function of
the cursor `i`, returning the remaining output lines together with the
number of fixes counted from position `i` on.  On an orphaned block the
cursor jumps to the position after the block's terminator (`i = j;
continue`); otherwise the current line is kept and the cursor advances
by 1. -/
def fixGo (lines : List (List Char)) (i : Nat) : List (List Char) × Nat :=
  if h : i < lines.length then
    if candLine (lines.get ⟨i, h⟩) then
      match prevNonBlank lines i with
      | some p =>
        if (lookAhead lines i).1 && !(isValidPrev (stripL (lines.getD p []))) then
          ((fixGo lines (lookAhead lines i).2).1,
            (fixGo lines (lookAhead lines i).2).2 + 1)
        else
          (lines.get ⟨i, h⟩ :: (fixGo lines (i + 1)).1, (fixGo lines (i + 1)).2)
      | none =>
        (lines.get ⟨i, h⟩ :: (fixGo lines (i + 1)).1, (fixGo lines (i + 1)).2)
    else
      (lines.get ⟨i, h⟩ :: (fixGo lines (i + 1)).1, (fixGo lines (i + 1)).2)
  else ([], 0)
termination_by lines.length - i
decreasing_by
  · have key : ∀ (t : List (List Char)) (j : Nat), j ≤ (lookAheadAux i j t).2 := by
      intro t
      induction t with
      | nil => intro j; simp [lookAheadAux]
      | cons l rest ih =>
        intro j
        simp only [lookAheadAux]
        split
        · simp
        · split
          · simp
          · exact Nat.le_trans (Nat.le_succ j) (ih (j + 1))
    have h2 : i < (lookAhead lines i).2 := by
      unfold lookAhead
      have hd : lines.drop i = lines.get ⟨i, h⟩ :: lines.drop (i + 1) :=
        List.drop_eq_getElem_cons h
      rw [hd]
      simp only [lookAheadAux]
      split
      · simp
      · split
        · simp
        · exact Nat.lt_of_lt_of_le (Nat.lt_succ_self i) (key _ (i + 1))
    omega
  all_goals omega

/-- The pure core of `fix_file`: the output lines (`fixed_lines`) and the
fix count for a whole file. -/
def fix_file (lines : List (List Char)) : List (List Char) × Nat :=
  fixGo lines 0

/-- The disk effect of `fix_file` (lines 63-68): if the fix count is
positive the file is rewritten with the fixed lines and the count is
returned, otherwise nothing is written and 0 is returned.  The result is
(file contents after the call, returned value, whether a write happened). -/
def fix_file_disk (contents : List (List Char)) : List (List Char) × Nat × Bool :=
  if (fix_file contents).2 > 0 then ((fix_file contents).1, (fix_file contents).2, true)
  else (contents, 0, false)

/-- The spec's orphaned-property shape of a raw line: leading whitespace,
an identifier, a colon, arbitrary content, and a trailing comma.  (This is
the intended candidate test; the code applies the regex to the stripped
line instead.) -/
def propertyShaped (line : List Char) : Bool :=
  matchWsWordColon line && endsWithL (rstripL line) [',']

/-- The single-quote character, used in the string literals of
`fix-layouts.py`. -/
def sq : Char := Char.ofNat 39

/-- Python `content.split(chr(10))`: split on newline; always returns at
least one (possibly empty) piece. -/
def splitNL : List Char → List (List Char)
  | [] => [[]]
  | c :: rest =>
    if c = '\n' then [] :: splitNL rest
    else
      match splitNL rest with
      | [] => [[c]]
      | l :: ls => (c :: l) :: ls

/-- Python `chr(10).join(ls)`. -/
def joinNL : List (List Char) → List Char
  | [] => []
  | l :: rest =>
    match rest with
    | [] => l
    | _ :: _ => l ++ '\n' :: joinNL rest

/-- Python `lines.insert(idx, x)`: insert before position `idx`, appending
at the end when `idx` is past the end. -/
def insertPy (idx : Nat) (x : List Char) (ls : List (List Char)) : List (List Char) :=
  ls.take idx ++ x :: ls.drop idx

/-- The marker substring `layout-constants`. -/
def layoutConstants : List Char := "layout-constants".data

/-- The string `'use client'` (single quotes). -/
def useClientSingle : List Char := sq :: ("use client".data ++ [sq])

/-- The string `"use client"` (double quotes). -/
def useClientDouble : List Char := "\"use client\"".data

/-- The inserted import line of `add_import` (fix-layouts.py line 199). -/
def importLine : List Char :=
  "import \x7b PAGE_HEADER_STYLES, PAGE_SECTION_STYLES \x7d from ".data ++
    (sq :: ("@/app/styles/layout-constants".data ++ [sq]))

/-- The insertion-point scan of `add_import` (fix-layouts.py lines
187-197): walk the lines with index `i`; on the first line containing a
`use client` directive return `i + 2`, on the first line starting with
`import ` return `i`; if nothing matches the initial value 0 stands. -/
def findInsertIdx : List (List Char) → Nat → Nat
  | [], _ => 0
  | l :: rest, i =>
    if containsSub useClientSingle l || containsSub useClientDouble l then i + 2
    else if "import ".data.isPrefixOf l then i
    else findInsertIdx rest (i + 1)

/-- `add_import` of fix-layouts.py (lines 180-202): return the content
unchanged when it already contains `layout-constants`, otherwise split it
into lines, insert the import line at the computed index, and re-join. -/
def add_import (content : List Char) : List Char :=
  if containsSub layoutConstants content then content
  else joinNL (insertPy (findInsertIdx (splitNL content) 0) importLine (splitNL content))

/-- The end-to-end input of the spec's test: a valid block inside
`function f() {` followed by an orphaned block after `});`. -/
def c1Lines : List (List Char) :=
  ["function f() \x7b".data, "  value: 42,".data, "\x7d);".data,
   "  other: 1,".data, "\x7d);".data]

/-- The two-line block `  foo: 1,` / `});` preceded by `something();`. -/
def c1bLines : List (List Char) :=
  ["something();".data, "  foo: 1,".data, "\x7d);".data]

/-- The two-line block preceded by `const x = {` (a valid construct). -/
def c4Lines : List (List Char) :=
  ["const x = \x7b".data, "  foo: 1,".data, "\x7d);".data]

/-- An input with no property-shaped line at all. -/
def c3Lines : List (List Char) := ["const x = 1;".data]

/-- A property-shaped line with no closing token in the file. -/
def c5Lines : List (List Char) := ["  foo: 1,".data]

/-- A property-shaped block starting at the start of file. -/
def c9Lines : List (List Char) := ["  foo: 1,".data, "\x7d);".data]

/-- The head of `dropWhile p` never satisfies `p`. -/
theorem head_dropWhile_not {p : Char → Bool} :
    ∀ (s : List Char) (c : Char), (s.dropWhile p).head? = some c → p c = false := by
  intro s
  induction s with
  | nil => intro c hc; simp at hc
  | cons a rest ih =>
    intro c hc
    rw [List.dropWhile_cons] at hc
    by_cases ha : p a
    · rw [if_pos ha] at hc
      exact ih c hc
    · rw [if_neg ha] at hc
      simp at hc
      rw [← hc]
      exact Bool.not_eq_true _ |>.mp ha

/-- `rstripL` keeps a prefix of its argument: the removed tail is the
reversed run of trailing whitespace. -/
theorem rstripL_append (t : List Char) :
    t = rstripL t ++ (t.reverse.takeWhile isSpaceChar).reverse := by
  unfold rstripL
  rw [← List.reverse_append, List.takeWhile_append_dropWhile, List.reverse_reverse]

/-- The stripped form of any line has no leading whitespace, so the regex
`^\s+\w+:` can never match it. -/
theorem matchWsWordColon_stripL (s : List Char) :
    matchWsWordColon (stripL s) = false := by
  unfold stripL
  rcases he : rstripL (s.dropWhile isSpaceChar) with _ | ⟨c, rest⟩
  · rfl
  · have ht := rstripL_append (s.dropWhile isSpaceChar)
    rw [he] at ht
    have hc : isSpaceChar c = false := by
      apply head_dropWhile_not s c
      rw [ht]
      rfl
    unfold matchWsWordColon
    rw [List.takeWhile_cons, hc]
    rfl

/-- The candidate test of `fix_file` never fires: the regex is applied to
the already-stripped line. -/
theorem candLine_false (line : List Char) : candLine line = false := by
  unfold candLine
  rw [matchWsWordColon_stripL]
  rfl

/-- With the candidate test always false, the scanning loop copies every
line from the cursor on and counts no fix. -/
theorem fixGo_eq (lines : List (List Char)) (i : Nat) :
    fixGo lines i = (lines.drop i, 0) := by
  unfold fixGo
  split
  · next h =>
    rw [candLine_false]
    simp only [Bool.false_eq_true, if_false]
    rw [fixGo_eq lines (i + 1)]
    rw [List.drop_eq_getElem_cons h]
    rfl
  · next h =>
    rw [List.drop_eq_nil_of_le (Nat.le_of_not_lt h)]
termination_by lines.length - i
decreasing_by omega

/-- `fix_file` returns its input unchanged with a fix count of 0. -/
theorem fix_file_id (lines : List (List Char)) : fix_file lines = (lines, 0) := by
  unfold fix_file
  rw [fixGo_eq]
  rfl

/-- The empty pattern is contained in every string. -/
theorem containsSub_nil_pat (s : List Char) : containsSub [] s = true := by
  induction s with
  | nil => rfl
  | cons c rest ih => simp [containsSub, List.isPrefixOf]

/-- A prefix of `s` is also a prefix of `s ++ t`. -/
theorem isPrefixOf_append {p : List Char} :
    ∀ {s t : List Char}, p.isPrefixOf s = true → p.isPrefixOf (s ++ t) = true := by
  induction p with
  | nil => intro s t _; simp [List.isPrefixOf]
  | cons a p' ih =>
    intro s t h
    cases s with
    | nil => simp [List.isPrefixOf] at h
    | cons b s' =>
      simp only [List.cons_append, List.isPrefixOf, Bool.and_eq_true] at h ⊢
      exact ⟨h.1, ih h.2⟩

/-- Containment in `s` gives containment in `s ++ t`. -/
theorem containsSub_append_right {p : List Char} :
    ∀ {s t : List Char}, containsSub p s = true → containsSub p (s ++ t) = true := by
  intro s
  induction s with
  | nil =>
    intro t h
    simp only [containsSub, List.isEmpty_iff] at h
    subst h
    exact containsSub_nil_pat t
  | cons c rest ih =>
    intro t h
    simp only [containsSub, Bool.or_eq_true] at h ⊢
    rcases h with h | h
    · exact Or.inl (isPrefixOf_append h)
    · exact Or.inr (ih h)

/-- Containment in `t` gives containment in `s ++ t`. -/
theorem containsSub_append_left {p : List Char} (s : List Char) :
    ∀ {t : List Char}, containsSub p t = true → containsSub p (s ++ t) = true := by
  induction s with
  | nil => intro t h; simpa using h
  | cons c s' ih =>
    intro t h
    simp only [List.cons_append, containsSub, Bool.or_eq_true]
    exact Or.inr (ih h)

/-- A pattern contained in some member of `ls` is contained in the
newline-join of `ls`. -/
theorem containsSub_joinNL {p x : List Char} :
    ∀ {ls : List (List Char)}, x ∈ ls → containsSub p x = true →
      containsSub p (joinNL ls) = true := by
  intro ls
  induction ls with
  | nil => intro hx; cases hx
  | cons l rest ih =>
    intro hx h
    cases rest with
    | nil =>
      rcases List.mem_singleton.mp hx with rfl
      exact h
    | cons r rs =>
      rcases List.mem_cons.mp hx with rfl | hx'
      · exact containsSub_append_right h
      · exact containsSub_append_left l
          (containsSub_append_left ['\n'] (ih hx' h))

/-- `add_import` on content that already has the marker is the identity. -/
theorem add_import_of_contains {d : List Char}
    (h : containsSub layoutConstants d = true) : add_import d = d := by
  simp [add_import, h]

/-- The result of `add_import` always contains `layout-constants`: either
the input already did, or the inserted import line does. -/
theorem add_import_contains (c : List Char) :
    containsSub layoutConstants (add_import c) = true := by
  unfold add_import
  split
  · next h => exact h
  · next h =>
    apply containsSub_joinNL (x := importLine)
    · unfold insertPy
      simp
    · decide

/-- Claim C1: the remover is claimed to delete orphaned blocks and count
them — on `["function f() \x7b", "  value: 42,", "\x7d);", "  other: 1,",
"\x7d);"]` the claimed result is the first three lines with fix count 1,
and on the block `  foo: 1,` / `\x7d);` preceded by `something();` the two
block lines are claimed removed with one fix.  Evaluating the code at both
failing inputs shows that `fix_file` returns every input line unchanged
with fix count 0: the candidate test applies the regex to the stripped
line, so it never fires and nothing is ever removed. -/
theorem claim1_orphan_removal_eval :
    fix_file c1Lines = (c1Lines, 0) ∧ fix_file c1bLines = (c1bLines, 0) :=
  ⟨fix_file_id c1Lines, fix_file_id c1bLines⟩

/-- Claim C2: for every list of input lines, `fix_file` returns exactly
the input lines and a fix count of 0, because the candidate test
`re.match` of a leading-whitespace pattern against an already-stripped
string can never succeed. -/
theorem claim2_fix_file_is_identity (lines : List (List Char)) :
    fix_file lines = (lines, 0) :=
  fix_file_id lines

/-- Claim C3: for every input whose lines contain no line matching the
orphaned-property shape (leading whitespace, identifier, colon, trailing
comma), `fix_file` returns the line sequence unchanged and reports zero
fixes. -/
theorem claim3_no_shape_unchanged (lines : List (List Char))
    (h : ∀ l ∈ lines, propertyShaped l = false) :
    fix_file lines = (lines, 0) :=
  fix_file_id lines

/-- Witness for claim C3 at the input `["const x = 1;"]`. -/
theorem claim3_witness :
    (∀ l ∈ c3Lines, propertyShaped l = false) ∧ fix_file c3Lines = (c3Lines, 0) :=
  ⟨by decide, claim3_no_shape_unchanged c3Lines (by decide)⟩

/-- Claim C4: whenever the nearest preceding non-blank line's trimmed text
passes the Orphan Verdict (ends with `\x7b`, ends with `(\x7b`, ends with
`: \x7b`, or contains `console.log`), the candidate block is kept and no
fix is counted: the whole output equals the input with fix count 0. -/
theorem claim4_valid_prev_kept (lines : List (List Char)) (i p : Nat)
    (hp : prevNonBlank lines i = some p)
    (hv : isValidPrev (stripL (lines.getD p [])) = true) :
    fix_file lines = (lines, 0) :=
  fix_file_id lines

/-- Witness for claim C4: the block `  foo: 1,` / `\x7d);` preceded by
`const x = \x7b` is copied to the output unchanged with no fix counted. -/
theorem claim4_witness :
    prevNonBlank c4Lines 1 = some 0 ∧
    isValidPrev (stripL (c4Lines.getD 0 [])) = true ∧
    fix_file c4Lines = (c4Lines, 0) :=
  ⟨by decide, by decide, claim4_valid_prev_kept c4Lines 1 0 (by decide) (by decide)⟩

/-- Claim C5: for a property-shaped line at cursor `i` whose look-ahead
finds no closing token within the safety window, the scanning loop copies
line `i` to the output unchanged, resumes at `i + 1` (the later lines are
re-evaluated, not skipped), and counts no fix for it. -/
theorem claim5_no_closing_keeps_line (lines : List (List Char)) (i : Nat)
    (h : i < lines.length)
    (hshape : propertyShaped (lines.getD i []) = true)
    (hnc : (lookAhead lines i).1 = false) :
    fixGo lines i = (lines.getD i [] :: (fixGo lines (i + 1)).1, (fixGo lines (i + 1)).2) := by
  rw [fixGo_eq, fixGo_eq, List.drop_eq_getElem_cons h, List.getD_eq_getElem lines [] h]

/-- Witness for claim C5 at the one-line input `["  foo: 1,"]`. -/
theorem claim5_witness :
    0 < c5Lines.length ∧
    propertyShaped (c5Lines.getD 0 []) = true ∧
    (lookAhead c5Lines 0).1 = false ∧
    fixGo c5Lines 0 = (c5Lines.getD 0 [] :: (fixGo c5Lines 1).1, (fixGo c5Lines 1).2) :=
  ⟨by decide, by decide, by decide,
    claim5_no_closing_keeps_line c5Lines 0 (by decide) (by decide) (by decide)⟩

/-- Claim C6: the remover is idempotent — applying the transformation to
its own output yields the same lines again with zero additional fixes. -/
theorem claim6_idempotent (lines : List (List Char)) :
    fix_file (fix_file lines).1 = ((fix_file lines).1, 0) :=
  fix_file_id (fix_file lines).1

/-- Claim C7: the output line sequence of `fix_file` is a subsequence of
the input — lines are only ever dropped, never duplicated or reordered. -/
theorem claim7_output_sublist (lines : List (List Char)) :
    List.Sublist (fix_file lines).1 lines := by
  rw [fix_file_id]

/-- Claim C8: the file is rewritten iff the fix count is positive; on a
zero-fix run no write happens, the contents stay byte-identical, and the
function returns 0. -/
theorem claim8_write_iff_fixes (c : List (List Char)) :
    ((fix_file_disk c).2.2 = true ↔ 0 < (fix_file c).2) ∧
    ((fix_file c).2 = 0 →
      (fix_file_disk c).1 = c ∧ (fix_file_disk c).2.1 = 0) := by
  unfold fix_file_disk
  rw [fix_file_id]
  simp

/-- Witness for claim C8 at the input `["const x = 1;"]`. -/
theorem claim8_witness :
    (fix_file c3Lines).2 = 0 ∧
    (fix_file_disk c3Lines).1 = c3Lines ∧ (fix_file_disk c3Lines).2.1 = 0 :=
  ⟨by simp [fix_file_id],
    (claim8_write_iff_fixes c3Lines).2 (by simp [fix_file_id])⟩

/-- Counterexample to claim C9: at the input `["  foo: 1,", "\x7d);"]` the
first line is property-shaped, the look-ahead finds the terminator, and
there is no non-blank preceding line — yet `fix_file` keeps both lines and
counts zero fixes, instead of removing the block and incrementing the
count as claimed. -/
theorem claim9_counterexample :
    propertyShaped (c9Lines.getD 0 []) = true ∧
    stripL (c9Lines.getD 1 []) = closingBP ∧
    (lookAhead c9Lines 0).1 = true ∧
    prevNonBlank c9Lines 0 = none ∧
    fix_file c9Lines = (c9Lines, 0) :=
  ⟨by decide, by decide, by decide, by decide, fix_file_id c9Lines⟩

/-- Claim C9 (amended): when there is no non-blank line before the cursor
(the block starts at the start of file, possibly after only blank lines),
the line at the cursor is kept unchanged, scanning resumes at the next
line, and the fix count is not incremented. -/
theorem claim9_start_of_file_kept (lines : List (List Char)) (i : Nat)
    (h : i < lines.length)
    (hp : prevNonBlank lines i = none) :
    fixGo lines i = (lines.getD i [] :: (fixGo lines (i + 1)).1, (fixGo lines (i + 1)).2) := by
  rw [fixGo_eq, fixGo_eq, List.drop_eq_getElem_cons h, List.getD_eq_getElem lines [] h]

/-- Witness for the amended claim C9 at `["  foo: 1,", "\x7d);"]`. -/
theorem claim9_witness :
    0 < c9Lines.length ∧
    prevNonBlank c9Lines 0 = none ∧
    fixGo c9Lines 0 = (c9Lines.getD 0 [] :: (fixGo c9Lines 1).1, (fixGo c9Lines 1).2) :=
  ⟨by decide, by decide, claim9_start_of_file_kept c9Lines 0 (by decide) (by decide)⟩

/-- Claim C10: `add_import` is idempotent — content that already contains
`layout-constants` is returned unchanged, and since the inserted import
line itself contains `layout-constants`, applying `add_import` twice
equals applying it once, for every content string. -/
theorem claim10_add_import_idem (c : List Char) :
    (containsSub layoutConstants c = true → add_import c = c) ∧
    add_import (add_import c) = add_import c :=
  ⟨fun h => add_import_of_contains h,
    add_import_of_contains (add_import_contains c)⟩

/-- Witness for claim C10 at the content `layout-constants` itself. -/
theorem claim10_witness :
    containsSub layoutConstants layoutConstants = true ∧
    add_import layoutConstants = layoutConstants :=
  ⟨by decide, (claim10_add_import_idem layoutConstants).1 (by decide)⟩

end ThunderText
